import Mathlib

/-!
# Delphix environment resource: CRUD reconciliation

A shallow embedding of `resource_delphix_environment.go`.

* The Terraform `*schema.ResourceData` handle is an explicit record that is
  passed in and returned (its identity `Id` plus the eight schema fields).
* The SDK client `*delphix.Client` is a parameter: a record of five
  operations over an arbitrary remote state `σ`.  Each operation returns the
  Go result tuple together with the next remote state.
* Go values of type `interface{}` are the sum type `Iface`; an unchecked
  type assertion that fails is the outcome `Ret.panicked`.
* A Go `error` is `Option String`: `none` is `nil`, `some t` is an error whose
  `Error()` text is `t`.
* Every client call is appended to a log so that "no call was made" and
  "called exactly once" are statements about the log.

`json.Marshal` / `fmt.Println` / `log.Println` only write to the standard
streams and are left out.
-/

namespace Delphix

/-! ## Values and results -/

/-- Dynamic Go value held in an `interface{}`. -/
inductive Iface where
  | nil
  | str (s : String)
  | bool (b : Bool)
  | num (n : Int)
  | map (m : List (String × Iface))
  | slice (xs : List Iface)

/-- Go map indexing `m[key]` on a `map[string]interface{}`: the zero value
(`nil`) when the key is missing. -/
def Iface.index (m : List (String × Iface)) (key : String) : Iface :=
  match m.lookup key with
  | some v => v
  | none => Iface.nil

/-- What a CRUD callback does: return `nil`, return an error with the given
text, or abort on a failed type assertion. -/
inductive Ret where
  | ok
  | error (text : String)
  | panicked
  deriving DecidableEq

/-! ## SDK payload types (the fields this file sets) -/

/-- Credential payload, `delphix.PasswordCredential` or
`delphix.SystemKeyCredential`, held in an `interface{}` field. -/
inductive Credential where
  | PasswordCredential (Type_ : String) (Password : String)
  | SystemKeyCredential (Type_ : String)
  deriving DecidableEq

structure EnvironmentUser where
  Type_ : String
  Name : String
  Credential : Credential
  deriving DecidableEq

structure UnixHostEnvironment where
  Type_ : String
  Name : String
  Description : String
  deriving DecidableEq

structure UnixHost where
  Type_ : String
  Address : String
  ToolkitPath : String
  deriving DecidableEq

structure UnixHostCreateParameters where
  Type_ : String
  Host : UnixHost
  deriving DecidableEq

structure HostEnvironmentCreateParameters where
  Type_ : String
  PrimaryUser : EnvironmentUser
  HostEnvironment : UnixHostEnvironment
  HostParameters : UnixHostCreateParameters
  deriving DecidableEq

/-! ## Local types -/

/-- The Go struct `Environment`. -/
structure Environment where
  name : String
  description : String
  userName : String
  userPassword : String
  address : String
  toolkitPath : String
  serverID : String
  publicKey : Bool
  deriving DecidableEq

/-- Contents of the `*schema.ResourceData` handle: the identity read by
`d.Id()` / written by `d.SetId`, and the schema fields read by `d.Get` /
written by `d.Set`. -/
structure ResourceData where
  Id : String
  user_name : String
  user_password : String
  name : String
  address : String
  description : String
  toolkit_path : String
  server_id : String
  public_key : Bool
  deriving DecidableEq

/-! ## The remote client -/

/-- One call on the SDK client, as recorded in the log. -/
inductive ClientCall where
  | FindEnvironmentByName (name : String)
  | FindEnvironmentByReference (reference : String)
  | CreateEnvironment (params : HostEnvironmentCreateParameters)
  | UpdateEnvironment (reference : String) (params : UnixHostEnvironment)
  | DeleteEnvironment (reference : String)
  deriving DecidableEq

/-- The five operations of `*delphix.Client` used by the resource, over a
remote state `σ`. -/
structure Client (σ : Type) where
  FindEnvironmentByName : String → σ → (Iface × Option String) × σ
  FindEnvironmentByReference : String → σ → (Iface × Option String) × σ
  CreateEnvironment : HostEnvironmentCreateParameters → σ → (Iface × Option String) × σ
  UpdateEnvironment : String → UnixHostEnvironment → σ → Option String × σ
  DeleteEnvironment : String → σ → Option String × σ

/-- Remote state together with the log of client calls made so far. -/
structure World (σ : Type) where
  remote : σ
  calls : List ClientCall

/-- Record a call and move to the remote state it produced. -/
def World.step {σ : Type} (w : World σ) (c : ClientCall) (s : σ) : World σ :=
  { remote := s, calls := w.calls ++ [c] }

/-! ## Schema -/

inductive ValueType where
  | TypeString
  | TypeBool
  deriving DecidableEq

/-- The fields of `schema.Schema` that the resource sets; unset booleans
are `false`. -/
structure Schema where
  Type_ : ValueType
  Required : Bool := false
  Optional : Bool := false
  ForceNew : Bool := false
  Sensitive : Bool := false
  deriving DecidableEq

/-- The `Schema` map of `resourceDelphixEnvironment`, in source order. -/
def resourceDelphixEnvironment : List (String × Schema) :=
  [ ("user_name",     { Type_ := .TypeString, Required := true, ForceNew := true }),
    ("user_password", { Type_ := .TypeString, Optional := true, ForceNew := true, Sensitive := true }),
    ("name",          { Type_ := .TypeString, Required := true }),
    ("address",       { Type_ := .TypeString, Required := true, ForceNew := true }),
    ("description",   { Type_ := .TypeString, Optional := true }),
    ("toolkit_path",  { Type_ := .TypeString, Required := true }),
    ("server_id",     { Type_ := .TypeString, Optional := true, ForceNew := true }),
    ("public_key",    { Type_ := .TypeBool, Optional := true, ForceNew := true }) ]

/-! ## Create -/

/-- The local `env` of `resourceDelphixEnvironmentCreate`: seven fields are
read from the handle, `serverID` keeps its zero value. -/
def createEnv (d : ResourceData) : Environment :=
  { name := d.name
    description := d.description
    userName := d.user_name
    userPassword := d.user_password
    address := d.address
    toolkitPath := d.toolkit_path
    serverID := ""
    publicKey := d.public_key }

/-- The local `thisCrendential` of `resourceDelphixEnvironmentCreate`: first
the password credential, overwritten by the system-key credential when
`env.publicKey == true`. -/
def thisCrendential (env : Environment) : Credential :=
  let c := Credential.PasswordCredential "PasswordCredential" env.userPassword
  if env.publicKey = true then
    Credential.SystemKeyCredential "SystemKeyCredential"
  else c

/-- The local `environmentCreateParams` of
`resourceDelphixEnvironmentCreate`. -/
def environmentCreateParams (env : Environment) : HostEnvironmentCreateParameters :=
  { Type_ := "HostEnvironmentCreateParameters"
    PrimaryUser :=
      { Type_ := "EnvironmentUser"
        Name := env.userName
        Credential := thisCrendential env }
    HostEnvironment :=
      { Type_ := "UnixHostEnvironment"
        Name := env.name
        Description := env.description }
    HostParameters :=
      { Type_ := "UnixHostCreateParameters"
        Host :=
          { Type_ := "UnixHost"
            Address := env.address
            ToolkitPath := env.toolkitPath } } }

/-- The callback `resourceDelphixEnvironmentCreate`. -/
def resourceDelphixEnvironmentCreate {σ : Type} (client : Client σ)
    (d : ResourceData) (w : World σ) : Ret × ResourceData × World σ :=
  let env := createEnv d
  let params := environmentCreateParams env
  let found := client.FindEnvironmentByName env.name w.remote
  let w1 := w.step (.FindEnvironmentByName env.name) found.2
  match found.1.2 with
  | some err => (.error err, d, w1)
  | none =>
    match found.1.1 with
    | .nil =>
      let made := client.CreateEnvironment params w1.remote
      let w2 := w1.step (.CreateEnvironment params) made.2
      match made.1.2 with
      | some err => (.error err, d, w2)
      | none =>
        match made.1.1 with
        | .nil => (.error ("Environment \"" ++ env.name ++ "\" was not created"), d, w2)
        | .str reference => (.ok, { d with Id := reference }, w2)
        | _ => (.panicked, d, w2)
    | _ => (.error ("Environment \"" ++ env.name ++ "\" already exists"), d, w1)

/-! ## Read -/

/-- The callback `resourceDelphixEnvironmentRead`. -/
def resourceDelphixEnvironmentRead {σ : Type} (client : Client σ)
    (d : ResourceData) (w : World σ) : Ret × ResourceData × World σ :=
  let reference := d.Id
  let found := client.FindEnvironmentByReference reference w.remote
  let w1 := w.step (.FindEnvironmentByReference reference) found.2
  match found.1.2 with
  | some err => (.error err, d, w1)
  | none =>
    match found.1.1 with
    | .nil => (.error ("Unable find environment \"" ++ reference ++ "\""), d, w1)
    | .map envObj =>
      match Iface.index envObj "name" with
      | .str name =>
        let d1 := { d with name := name }
        match Iface.index envObj "description" with
        | .str description => (.ok, { d1 with description := description }, w1)
        | _ => (.panicked, d1, w1)
      | _ => (.panicked, d, w1)
    | _ => (.panicked, d, w1)

/-! ## Update -/

/-- The local `uEnv` of `resourceDelphixEnvironmentUpdate`: six fields are
read from the handle, `serverID` and `publicKey` keep their zero values. -/
def updateEnv (d : ResourceData) : Environment :=
  { name := d.name
    description := d.description
    userName := d.user_name
    userPassword := d.user_password
    address := d.address
    toolkitPath := d.toolkit_path
    serverID := ""
    publicKey := false }

/-- The local `environmentUpdateParams` of
`resourceDelphixEnvironmentUpdate`. -/
def environmentUpdateParams (uEnv : Environment) : UnixHostEnvironment :=
  { Type_ := "UnixHostEnvironment"
    Name := uEnv.name
    Description := uEnv.description }

/-- The callback `resourceDelphixEnvironmentUpdate`. -/
def resourceDelphixEnvironmentUpdate {σ : Type} (client : Client σ)
    (d : ResourceData) (w : World σ) : Ret × ResourceData × World σ :=
  let uEnv := updateEnv d
  let params := environmentUpdateParams uEnv
  let updated := client.UpdateEnvironment d.Id params w.remote
  let w1 := w.step (.UpdateEnvironment d.Id params) updated.2
  match updated.1 with
  | some err => (.error ("error updating Environment: " ++ err), d, w1)
  | none => resourceDelphixEnvironmentRead client d w1

/-! ## Delete -/

/-- The callback `resourceDelphixEnvironmentDelete`. -/
def resourceDelphixEnvironmentDelete {σ : Type} (client : Client σ)
    (d : ResourceData) (w : World σ) : Ret × ResourceData × World σ :=
  let reference := d.Id
  let found := client.FindEnvironmentByReference reference w.remote
  let w1 := w.step (.FindEnvironmentByReference reference) found.2
  match found.1.2 with
  | some err => (.error err, d, w1)
  | none =>
    match found.1.1 with
    | .nil => (.error ("Unable find environment \"" ++ reference ++ "\""), d, w1)
    | _ =>
      let deleted := client.DeleteEnvironment reference w1.remote
      let w2 := w1.step (.DeleteEnvironment reference) deleted.2
      match deleted.1 with
      | some err => (.error err, d, w2)
      | none => (.ok, { d with Id := "" }, w2)

/-! ## Fixtures and vocabulary for the statements -/

/-- The text `s` has `sub` as a contiguous part. -/
def Contains (s sub : String) : Prop :=
  ∃ pre post : String, s = pre ++ sub ++ post

/-- The system-key variant of the credential union. -/
def Credential.isSystemKey : Credential → Bool
  | .SystemKeyCredential _ => true
  | .PasswordCredential _ _ => false

/-- The log entries that are `CreateEnvironment` calls. -/
def ClientCall.isCreate : ClientCall → Bool
  | .CreateEnvironment _ => true
  | _ => false

/-- The log entries that are `DeleteEnvironment` calls. -/
def ClientCall.isDelete : ClientCall → Bool
  | .DeleteEnvironment _ => true
  | _ => false

/-- A client with fixed answers and no remote state. -/
def cannedClient (byName byReference created : Iface)
    (createErr updateErr deleteErr : Option String) : Client Unit :=
  { FindEnvironmentByName := fun _ _ => ((byName, none), ())
    FindEnvironmentByReference := fun _ _ => ((byReference, none), ())
    CreateEnvironment := fun _ _ => ((created, createErr), ())
    UpdateEnvironment := fun _ _ _ => (updateErr, ())
    DeleteEnvironment := fun _ _ => (deleteErr, ()) }

/-- A client whose reference lookup fails with the given error text. -/
def lookupErrorClient (err : String) : Client Unit :=
  { FindEnvironmentByName := fun _ _ => ((Iface.nil, none), ())
    FindEnvironmentByReference := fun _ _ => ((Iface.nil, some err), ())
    CreateEnvironment := fun _ _ => ((Iface.nil, none), ())
    UpdateEnvironment := fun _ _ _ => (none, ())
    DeleteEnvironment := fun _ _ => (none, ()) }

/-- The configuration of the specification scenario, not yet created. -/
def env1 : ResourceData :=
  { Id := ""
    user_name := "delphix"
    user_password := "secret"
    name := "env1"
    address := "10.0.0.1"
    description := ""
    toolkit_path := "/tk"
    server_id := ""
    public_key := false }

/-- The scenario configuration after a create that returned
`UNIX_HOST_ENVIRONMENT-1`. -/
def env1Created : ResourceData :=
  { env1 with Id := "UNIX_HOST_ENVIRONMENT-1" }

/-- A world in which nothing has been called yet. -/
def freshWorld : World Unit :=
  { remote := (), calls := [] }

/-! ## Sequences of callbacks -/

/-- One callback invocation by the orchestration engine.  Create and Update
are invoked with the declared configuration; the identity of the handle is
always the one left by the previous invocation. -/
inductive Op where
  | Create (config : ResourceData)
  | Read
  | Update (config : ResourceData)
  | Delete

/-- The handle and the world between two invocations, with the flag `live`:
a Create has returned no error and no Delete has returned no error since. -/
structure Session (σ : Type) where
  d : ResourceData
  w : World σ
  live : Bool

/-- Run one callback.  An invocation that aborts leaves the handle as it was
at that point and the sequence goes on, so every prefix of a run is covered. -/
def Session.call {σ : Type} (client : Client σ) (s : Session σ) : Op → Session σ
  | .Create config =>
    let r := resourceDelphixEnvironmentCreate client { config with Id := s.d.Id } s.w
    { d := r.2.1, w := r.2.2, live := s.live || decide (r.1 = Ret.ok) }
  | .Read =>
    let r := resourceDelphixEnvironmentRead client s.d s.w
    { d := r.2.1, w := r.2.2, live := s.live }
  | .Update config =>
    let r := resourceDelphixEnvironmentUpdate client { config with Id := s.d.Id } s.w
    { d := r.2.1, w := r.2.2, live := s.live }
  | .Delete =>
    let r := resourceDelphixEnvironmentDelete client s.d s.w
    { d := r.2.1, w := r.2.2, live := s.live && !decide (r.1 = Ret.ok) }

/-- Run a sequence of callbacks. -/
def run {σ : Type} (client : Client σ) (s : Session σ) (ops : List Op) : Session σ :=
  ops.foldl (Session.call client) s

/-- The absent state: no reference, nothing created. -/
def absent {σ : Type} (config : ResourceData) (w : World σ) : Session σ :=
  { d := { config with Id := "" }, w := w, live := false }

/-! ## Theorems -/

theorem contains_mid (a b c : String) : Contains (a ++ b ++ c) b :=
  ⟨a, c, rfl⟩

theorem contains_tail (a b : String) : Contains (a ++ b) b :=
  ⟨a, "", by simp⟩

/-- C1: when `FindEnvironmentByName` reports a non-nil identity and no
error, Create returns the error `Environment "<name>" already exists`, whose
text contains the name and `already exists`; the only client call made is
that lookup, so `CreateEnvironment` is never called; the handle, and so the
persisted identity, is unchanged. -/
theorem create_duplicate_rejected {σ : Type} (client : Client σ)
    (d : ResourceData) (w : World σ) (environmentRef : Iface)
    (hfind : (client.FindEnvironmentByName d.name w.remote).1 = (environmentRef, none))
    (hpresent : environmentRef ≠ Iface.nil) :
    ∃ text,
      (resourceDelphixEnvironmentCreate client d w).1 = Ret.error text ∧
      Contains text d.name ∧ Contains text "already exists" ∧
      (resourceDelphixEnvironmentCreate client d w).2.2.calls
        = w.calls ++ [ClientCall.FindEnvironmentByName d.name] ∧
      (∀ p, ClientCall.CreateEnvironment p ∉
        [ClientCall.FindEnvironmentByName d.name]) ∧
      (resourceDelphixEnvironmentCreate client d w).2.1 = d ∧
      (resourceDelphixEnvironmentCreate client d w).2.1.Id = d.Id := by
  refine ⟨"Environment \"" ++ d.name ++ "\" already exists", ?_⟩
  have h1 : (client.FindEnvironmentByName d.name w.remote).1.2 = none := by rw [hfind]
  have h2 : (client.FindEnvironmentByName d.name w.remote).1.1 = environmentRef := by rw [hfind]
  have hrun : resourceDelphixEnvironmentCreate client d w
      = (Ret.error ("Environment \"" ++ d.name ++ "\" already exists"), d,
          w.step (.FindEnvironmentByName d.name)
            (client.FindEnvironmentByName d.name w.remote).2) := by
    simp only [resourceDelphixEnvironmentCreate, createEnv, h1, h2]
  rw [hrun]
  refine ⟨rfl, contains_mid _ _ _, ?_, rfl, ?_, rfl, rfl⟩
  · exact ⟨"Environment \"" ++ d.name ++ "\" ", "", by simp [String.append_assoc]⟩
  · intro p hp
    simp at hp

/-- Witness for C1: the scenario `env1` against a remote that already knows
the name. -/
theorem create_duplicate_rejected_witness :
    (cannedClient (.str "UNIX_HOST_ENVIRONMENT-7") .nil .nil none none none).FindEnvironmentByName
        env1.name freshWorld.remote = ((Iface.str "UNIX_HOST_ENVIRONMENT-7", none), ()) ∧
    ∃ text,
      (resourceDelphixEnvironmentCreate
        (cannedClient (.str "UNIX_HOST_ENVIRONMENT-7") .nil .nil none none none)
        env1 freshWorld).1 = Ret.error text ∧
      Contains text env1.name ∧ Contains text "already exists" ∧
      (resourceDelphixEnvironmentCreate
        (cannedClient (.str "UNIX_HOST_ENVIRONMENT-7") .nil .nil none none none)
        env1 freshWorld).2.2.calls
        = freshWorld.calls ++ [ClientCall.FindEnvironmentByName env1.name] ∧
      (∀ p, ClientCall.CreateEnvironment p ∉
        [ClientCall.FindEnvironmentByName env1.name]) ∧
      (resourceDelphixEnvironmentCreate
        (cannedClient (.str "UNIX_HOST_ENVIRONMENT-7") .nil .nil none none none)
        env1 freshWorld).2.1 = env1 ∧
      (resourceDelphixEnvironmentCreate
        (cannedClient (.str "UNIX_HOST_ENVIRONMENT-7") .nil .nil none none none)
        env1 freshWorld).2.1.Id = env1.Id :=
  ⟨rfl,
   create_duplicate_rejected
     (cannedClient (.str "UNIX_HOST_ENVIRONMENT-7") .nil .nil none none none)
     env1 freshWorld (.str "UNIX_HOST_ENVIRONMENT-7") rfl (by intro h; cases h)⟩

/-- Shape of a Create run that returned `nil`: the name lookup reported
nothing, `CreateEnvironment` answered a string with no error, and that string
is the new identity. -/
theorem create_ok_inv {σ : Type} (client : Client σ) (d : ResourceData) (w : World σ)
    (hok : (resourceDelphixEnvironmentCreate client d w).1 = Ret.ok) :
    ∃ reference,
      (client.FindEnvironmentByName d.name w.remote).1 = (Iface.nil, none) ∧
      (client.CreateEnvironment (environmentCreateParams (createEnv d))
        (client.FindEnvironmentByName d.name w.remote).2).1 = (Iface.str reference, none) ∧
      resourceDelphixEnvironmentCreate client d w
        = (Ret.ok, { d with Id := reference },
            (w.step (.FindEnvironmentByName d.name)
                (client.FindEnvironmentByName d.name w.remote).2).step
              (.CreateEnvironment (environmentCreateParams (createEnv d)))
              (client.CreateEnvironment (environmentCreateParams (createEnv d))
                (client.FindEnvironmentByName d.name w.remote).2).2) := by
  rcases hf : client.FindEnvironmentByName d.name w.remote with ⟨⟨ref, err⟩, s1⟩
  rcases hc : client.CreateEnvironment (environmentCreateParams (createEnv d)) s1
    with ⟨⟨made, err2⟩, s2⟩
  simp only [resourceDelphixEnvironmentCreate, createEnv, World.step, hf] at hok ⊢
  cases err with
  | some e => simp at hok
  | none =>
    cases ref with
    | nil =>
      simp only [createEnv] at hc
      simp only [hc] at hok ⊢
      cases err2 with
      | some e => simp at hok
      | none =>
        cases made with
        | str r => exact ⟨r, by simp⟩
        | _ => simp at hok
    | _ => simp at hok

/-- C2: whenever Create returns no error, the calls it added to the log are
the name lookup followed by one `CreateEnvironment` call on the payload it
built (so `CreateEnvironment` was invoked exactly once), that call answered a
string identity with no error, and the persisted identity is exactly that
string; the other fields of the handle are unchanged. -/
theorem create_success_persists_returned_identity {σ : Type} (client : Client σ)
    (d : ResourceData) (w : World σ)
    (hok : (resourceDelphixEnvironmentCreate client d w).1 = Ret.ok) :
    (resourceDelphixEnvironmentCreate client d w).2.2.calls
      = w.calls ++ [ClientCall.FindEnvironmentByName d.name,
          ClientCall.CreateEnvironment (environmentCreateParams (createEnv d))] ∧
    ([ClientCall.FindEnvironmentByName d.name,
        ClientCall.CreateEnvironment (environmentCreateParams (createEnv d))].filter
      ClientCall.isCreate).length = 1 ∧
    (client.CreateEnvironment (environmentCreateParams (createEnv d))
        (client.FindEnvironmentByName d.name w.remote).2).1
      = (Iface.str (resourceDelphixEnvironmentCreate client d w).2.1.Id, none) ∧
    (resourceDelphixEnvironmentCreate client d w).2.1
      = { d with Id := (resourceDelphixEnvironmentCreate client d w).2.1.Id } := by
  obtain ⟨reference, -, hmade, hrun⟩ := create_ok_inv client d w hok
  rw [hrun]
  refine ⟨?_, rfl, hmade, rfl⟩
  simp [World.step]

/-- Witness for C2: the scenario `env1` against a remote that does not know
the name and answers the create call with `UNIX_HOST_ENVIRONMENT-1`. -/
theorem create_success_persists_returned_identity_witness :
    (resourceDelphixEnvironmentCreate
      (cannedClient .nil .nil (.str "UNIX_HOST_ENVIRONMENT-1") none none none)
      env1 freshWorld).1 = Ret.ok ∧
    (resourceDelphixEnvironmentCreate
      (cannedClient .nil .nil (.str "UNIX_HOST_ENVIRONMENT-1") none none none)
      env1 freshWorld).2.1.Id = "UNIX_HOST_ENVIRONMENT-1" ∧
    (resourceDelphixEnvironmentCreate
      (cannedClient .nil .nil (.str "UNIX_HOST_ENVIRONMENT-1") none none none)
      env1 freshWorld).2.2.calls
      = freshWorld.calls ++ [ClientCall.FindEnvironmentByName env1.name,
          ClientCall.CreateEnvironment (environmentCreateParams (createEnv env1))] :=
  ⟨rfl, rfl,
   (create_success_persists_returned_identity
     (cannedClient .nil .nil (.str "UNIX_HOST_ENVIRONMENT-1") none none none)
     env1 freshWorld rfl).1⟩

/-- C3: the payload Create builds carries the system-key credential exactly
when `public_key` is true; with the flag false it carries the password
credential whose `Password` is `user_password`; with the flag true the
credential is the system-key one, which has no password field, and the whole
payload is the same whatever `user_password` is. -/
theorem create_payload_credential (d : ResourceData) :
    ((environmentCreateParams (createEnv d)).PrimaryUser.Credential.isSystemKey = true
      ↔ d.public_key = true) ∧
    (d.public_key = false →
      (environmentCreateParams (createEnv d)).PrimaryUser.Credential
        = Credential.PasswordCredential "PasswordCredential" d.user_password) ∧
    (d.public_key = true →
      (environmentCreateParams (createEnv d)).PrimaryUser.Credential
        = Credential.SystemKeyCredential "SystemKeyCredential" ∧
      ∀ other : String,
        environmentCreateParams (createEnv { d with user_password := other })
          = environmentCreateParams (createEnv d)) := by
  cases hk : d.public_key <;>
    simp [environmentCreateParams, createEnv, thisCrendential, Credential.isSystemKey, hk]

/-- Witness for C3: both settings of the flag on the scenario
configuration. -/
theorem create_payload_credential_witness :
    (environmentCreateParams (createEnv env1)).PrimaryUser.Credential
      = Credential.PasswordCredential "PasswordCredential" "secret" ∧
    ((environmentCreateParams (createEnv { env1 with public_key := true })).PrimaryUser.Credential
        = Credential.SystemKeyCredential "SystemKeyCredential" ∧
      ∀ other : String,
        environmentCreateParams
            (createEnv { { env1 with public_key := true } with user_password := other })
          = environmentCreateParams (createEnv { env1 with public_key := true })) :=
  ⟨(create_payload_credential env1).2.1 rfl,
   (create_payload_credential { env1 with public_key := true }).2.2 rfl⟩

/-- C4: when `FindEnvironmentByReference` reports no object and no error,
Read returns the error `Unable find environment "<reference>"`, whose text
contains the stored reference, and the handle is unchanged (identity, name,
description and every other field). -/
theorem read_not_found {σ : Type} (client : Client σ) (d : ResourceData) (w : World σ)
    (hfind : (client.FindEnvironmentByReference d.Id w.remote).1 = (Iface.nil, none)) :
    (resourceDelphixEnvironmentRead client d w).1
      = Ret.error ("Unable find environment \"" ++ d.Id ++ "\"") ∧
    Contains ("Unable find environment \"" ++ d.Id ++ "\"") d.Id ∧
    (resourceDelphixEnvironmentRead client d w).2.1 = d ∧
    (resourceDelphixEnvironmentRead client d w).2.1.name = d.name ∧
    (resourceDelphixEnvironmentRead client d w).2.1.description = d.description := by
  have h1 : (client.FindEnvironmentByReference d.Id w.remote).1.2 = none := by rw [hfind]
  have h2 : (client.FindEnvironmentByReference d.Id w.remote).1.1 = Iface.nil := by rw [hfind]
  have hrun : resourceDelphixEnvironmentRead client d w
      = (Ret.error ("Unable find environment \"" ++ d.Id ++ "\""), d,
          w.step (.FindEnvironmentByReference d.Id)
            (client.FindEnvironmentByReference d.Id w.remote).2) := by
    simp only [resourceDelphixEnvironmentRead, h1, h2]
  rw [hrun]
  exact ⟨rfl, contains_mid _ _ _, rfl, rfl, rfl⟩

/-- Witness for C4: the created scenario resource against a remote that no
longer has the object. -/
theorem read_not_found_witness :
    (cannedClient .nil .nil .nil none none none).FindEnvironmentByReference
        env1Created.Id freshWorld.remote = ((Iface.nil, none), ()) ∧
    (resourceDelphixEnvironmentRead (cannedClient .nil .nil .nil none none none)
        env1Created freshWorld).1
      = Ret.error "Unable find environment \"UNIX_HOST_ENVIRONMENT-1\"" ∧
    (resourceDelphixEnvironmentRead (cannedClient .nil .nil .nil none none none)
        env1Created freshWorld).2.1 = env1Created :=
  ⟨rfl,
   (read_not_found (cannedClient .nil .nil .nil none none none)
      env1Created freshWorld rfl).1,
   (read_not_found (cannedClient .nil .nil .nil none none none)
      env1Created freshWorld rfl).2.2.1⟩

/-- Read against a lookup that answers a map whose `name` and
`description` entries are strings. -/
theorem read_found_run {σ : Type} (client : Client σ) (d : ResourceData) (w : World σ)
    (envObj : List (String × Iface)) (name description : String)
    (hfind : (client.FindEnvironmentByReference d.Id w.remote).1 = (Iface.map envObj, none))
    (hname : Iface.index envObj "name" = Iface.str name)
    (hdesc : Iface.index envObj "description" = Iface.str description) :
    resourceDelphixEnvironmentRead client d w
      = (Ret.ok, { d with name := name, description := description },
          w.step (.FindEnvironmentByReference d.Id)
            (client.FindEnvironmentByReference d.Id w.remote).2) := by
  have h1 : (client.FindEnvironmentByReference d.Id w.remote).1.2 = none := by rw [hfind]
  have h2 : (client.FindEnvironmentByReference d.Id w.remote).1.1 = Iface.map envObj := by
    rw [hfind]
  simp only [resourceDelphixEnvironmentRead, h1, h2, hname, hdesc]

/-- Counterexample for C5 as stated: the lookup answers a non-nil object and
no error, but the object has no `description` entry; Read then does not
return at all (the type assertion on the missing entry fails), after having
already overwritten the name. -/
theorem read_resolvable_counterexample :
    (cannedClient .nil (.map [("name", .str "renamed")]) .nil none none none).FindEnvironmentByReference
        env1Created.Id freshWorld.remote
      = ((Iface.map [("name", .str "renamed")], none), ()) ∧
    (resourceDelphixEnvironmentRead
        (cannedClient .nil (.map [("name", .str "renamed")]) .nil none none none)
        env1Created freshWorld).1 = Ret.panicked ∧
    (resourceDelphixEnvironmentRead
        (cannedClient .nil (.map [("name", .str "renamed")]) .nil none none none)
        env1Created freshWorld).1 ≠ Ret.ok ∧
    (resourceDelphixEnvironmentRead
        (cannedClient .nil (.map [("name", .str "renamed")]) .nil none none none)
        env1Created freshWorld).2.1 = { env1Created with name := "renamed" } := by
  refine ⟨rfl, ?_, ?_, ?_⟩ <;> decide

/-- C5 (amended): when `FindEnvironmentByReference` answers, with no error,
an object whose `name` and `description` entries are strings, Read returns no
error, the persisted name and description become those two strings, and the
identity and every other field of the handle are unchanged. -/
theorem read_resolvable_refreshes_name_description {σ : Type} (client : Client σ)
    (d : ResourceData) (w : World σ)
    (envObj : List (String × Iface)) (name description : String)
    (hfind : (client.FindEnvironmentByReference d.Id w.remote).1 = (Iface.map envObj, none))
    (hname : Iface.index envObj "name" = Iface.str name)
    (hdesc : Iface.index envObj "description" = Iface.str description) :
    (resourceDelphixEnvironmentRead client d w).1 = Ret.ok ∧
    (resourceDelphixEnvironmentRead client d w).2.1.name = name ∧
    (resourceDelphixEnvironmentRead client d w).2.1.description = description ∧
    (resourceDelphixEnvironmentRead client d w).2.1.Id = d.Id ∧
    (resourceDelphixEnvironmentRead client d w).2.1
      = { d with name := name, description := description } := by
  rw [read_found_run client d w envObj name description hfind hname hdesc]
  exact ⟨rfl, rfl, rfl, rfl, rfl⟩

/-- Witness for C5 (amended): the created scenario resource against a remote
object that was renamed and described out of band. -/
theorem read_resolvable_refreshes_name_description_witness :
    (resourceDelphixEnvironmentRead
        (cannedClient .nil (.map [("name", .str "renamed"), ("description", .str "lab host")])
          .nil none none none)
        env1Created freshWorld).1 = Ret.ok ∧
    (resourceDelphixEnvironmentRead
        (cannedClient .nil (.map [("name", .str "renamed"), ("description", .str "lab host")])
          .nil none none none)
        env1Created freshWorld).2.1
      = { env1Created with name := "renamed", description := "lab host" } :=
  ⟨(read_resolvable_refreshes_name_description
      (cannedClient .nil (.map [("name", .str "renamed"), ("description", .str "lab host")])
        .nil none none none)
      env1Created freshWorld
      [("name", .str "renamed"), ("description", .str "lab host")] "renamed" "lab host"
      rfl rfl rfl).1,
   (read_resolvable_refreshes_name_description
      (cannedClient .nil (.map [("name", .str "renamed"), ("description", .str "lab host")])
        .nil none none none)
      env1Created freshWorld
      [("name", .str "renamed"), ("description", .str "lab host")] "renamed" "lab host"
      rfl rfl rfl).2.2.2.2⟩

/-- Counterexample for C6 as stated: `UpdateEnvironment` succeeds in both
runs, yet the persisted name and description are not the remote object's
values.  In the first run the read-back finds no object: Update returns the
not-found error and the handle still holds the submitted name.  In the
second run the remote object has the description `lab host` but a name that
is not a string: Update does not return, and the handle still holds the
submitted name and description. -/
theorem update_success_is_read_counterexample :
    ((cannedClient .nil .nil .nil none none none).UpdateEnvironment env1Created.Id
        (environmentUpdateParams
          (updateEnv { env1Created with name := "env1-new", description := "submitted" }))
        freshWorld.remote).1 = none ∧
    (resourceDelphixEnvironmentUpdate (cannedClient .nil .nil .nil none none none)
        { env1Created with name := "env1-new", description := "submitted" } freshWorld).1
      = Ret.error "Unable find environment \"UNIX_HOST_ENVIRONMENT-1\"" ∧
    (resourceDelphixEnvironmentUpdate (cannedClient .nil .nil .nil none none none)
        { env1Created with name := "env1-new", description := "submitted" }
        freshWorld).2.1.name = "env1-new" ∧
    ((cannedClient .nil (.map [("name", .num 7), ("description", .str "lab host")])
          .nil none none none).UpdateEnvironment env1Created.Id
        (environmentUpdateParams
          (updateEnv { env1Created with name := "env1-new", description := "submitted" }))
        freshWorld.remote).1 = none ∧
    (resourceDelphixEnvironmentUpdate
        (cannedClient .nil (.map [("name", .num 7), ("description", .str "lab host")])
          .nil none none none)
        { env1Created with name := "env1-new", description := "submitted" } freshWorld).1
      = Ret.panicked ∧
    (resourceDelphixEnvironmentUpdate
        (cannedClient .nil (.map [("name", .num 7), ("description", .str "lab host")])
          .nil none none none)
        { env1Created with name := "env1-new", description := "submitted" }
        freshWorld).2.1.description = "submitted" ∧
    (resourceDelphixEnvironmentUpdate
        (cannedClient .nil (.map [("name", .num 7), ("description", .str "lab host")])
          .nil none none none)
        { env1Created with name := "env1-new", description := "submitted" }
        freshWorld).2.1.description ≠ "lab host" := by
  refine ⟨rfl, ?_, ?_, rfl, ?_, ?_, ?_⟩ <;> decide

/-- C6 (amended): when `UpdateEnvironment` returns no error, Update returns
the same result, handle and world as Read run on the unchanged handle against
the world that call produced; when that read-back finds, with no error, an
object whose name and description entries are strings, Update returns no
error and those two strings are the persisted name and description, whatever
name and description were submitted. -/
theorem update_success_is_read {σ : Type} (client : Client σ)
    (d : ResourceData) (w : World σ)
    (hupd : (client.UpdateEnvironment d.Id (environmentUpdateParams (updateEnv d))
      w.remote).1 = none) :
    resourceDelphixEnvironmentUpdate client d w
      = resourceDelphixEnvironmentRead client d
          (w.step (.UpdateEnvironment d.Id (environmentUpdateParams (updateEnv d)))
            (client.UpdateEnvironment d.Id (environmentUpdateParams (updateEnv d))
              w.remote).2) ∧
    ∀ (envObj : List (String × Iface)) (name description : String),
      (client.FindEnvironmentByReference d.Id
          (client.UpdateEnvironment d.Id (environmentUpdateParams (updateEnv d))
            w.remote).2).1 = (Iface.map envObj, none) →
      Iface.index envObj "name" = Iface.str name →
      Iface.index envObj "description" = Iface.str description →
      (resourceDelphixEnvironmentUpdate client d w).1 = Ret.ok ∧
      (resourceDelphixEnvironmentUpdate client d w).2.1
        = { d with name := name, description := description } := by
  have hrun : resourceDelphixEnvironmentUpdate client d w
      = resourceDelphixEnvironmentRead client d
          (w.step (.UpdateEnvironment d.Id (environmentUpdateParams (updateEnv d)))
            (client.UpdateEnvironment d.Id (environmentUpdateParams (updateEnv d))
              w.remote).2) := by
    simp only [resourceDelphixEnvironmentUpdate, hupd]
  refine ⟨hrun, ?_⟩
  intro envObj name description hfind hname hdesc
  rw [hrun, read_found_run client d _ envObj name description hfind hname hdesc]
  exact ⟨rfl, rfl⟩

/-- Witness for C6 (amended): the scenario resource is updated with a new local name,
the remote confirms a different name and description, and the handle ends
with the remote values. -/
theorem update_success_is_read_witness :
    (resourceDelphixEnvironmentUpdate
        (cannedClient .nil (.map [("name", .str "ENV1"), ("description", .str "lab host")])
          .nil none none none)
        { env1Created with name := "env1-new" } freshWorld).1 = Ret.ok ∧
    (resourceDelphixEnvironmentUpdate
        (cannedClient .nil (.map [("name", .str "ENV1"), ("description", .str "lab host")])
          .nil none none none)
        { env1Created with name := "env1-new" } freshWorld).2.1
      = { env1Created with name := "ENV1", description := "lab host" } :=
  (update_success_is_read
      (cannedClient .nil (.map [("name", .str "ENV1"), ("description", .str "lab host")])
        .nil none none none)
      { env1Created with name := "env1-new" } freshWorld rfl).2
    [("name", .str "ENV1"), ("description", .str "lab host")] "ENV1" "lab host" rfl rfl rfl

/-- Delete against a lookup that answers a non-nil object and no error: the
delete call is issued and its error decides the outcome. -/
theorem delete_found_run {σ : Type} (client : Client σ) (d : ResourceData) (w : World σ)
    (envObj : Iface)
    (hfind : (client.FindEnvironmentByReference d.Id w.remote).1 = (envObj, none))
    (hpresent : envObj ≠ Iface.nil) :
    resourceDelphixEnvironmentDelete client d w
      = match (client.DeleteEnvironment d.Id
            (client.FindEnvironmentByReference d.Id w.remote).2).1 with
        | some err =>
          (Ret.error err, d,
            (w.step (.FindEnvironmentByReference d.Id)
                (client.FindEnvironmentByReference d.Id w.remote).2).step
              (.DeleteEnvironment d.Id)
              (client.DeleteEnvironment d.Id
                (client.FindEnvironmentByReference d.Id w.remote).2).2)
        | none =>
          (Ret.ok, { d with Id := "" },
            (w.step (.FindEnvironmentByReference d.Id)
                (client.FindEnvironmentByReference d.Id w.remote).2).step
              (.DeleteEnvironment d.Id)
              (client.DeleteEnvironment d.Id
                (client.FindEnvironmentByReference d.Id w.remote).2).2) := by
  have h1 : (client.FindEnvironmentByReference d.Id w.remote).1.2 = none := by rw [hfind]
  have h2 : (client.FindEnvironmentByReference d.Id w.remote).1.1 = envObj := by rw [hfind]
  cases envObj with
  | nil => exact absurd rfl hpresent
  | _ => simp only [resourceDelphixEnvironmentDelete, h1, h2, World.step]

/-- Delete against a lookup that answers no object and no error. -/
theorem delete_missing_run {σ : Type} (client : Client σ) (d : ResourceData) (w : World σ)
    (hfind : (client.FindEnvironmentByReference d.Id w.remote).1 = (Iface.nil, none)) :
    resourceDelphixEnvironmentDelete client d w
      = (Ret.error ("Unable find environment \"" ++ d.Id ++ "\""), d,
          w.step (.FindEnvironmentByReference d.Id)
            (client.FindEnvironmentByReference d.Id w.remote).2) := by
  have h1 : (client.FindEnvironmentByReference d.Id w.remote).1.2 = none := by rw [hfind]
  have h2 : (client.FindEnvironmentByReference d.Id w.remote).1.1 = Iface.nil := by rw [hfind]
  simp only [resourceDelphixEnvironmentDelete, h1, h2]

/-- Delete against a lookup that fails: the lookup error is returned as it
is and nothing else is called. -/
theorem delete_lookup_error_run {σ : Type} (client : Client σ) (d : ResourceData)
    (w : World σ) (envObj : Iface) (err : String)
    (hfind : (client.FindEnvironmentByReference d.Id w.remote).1 = (envObj, some err)) :
    resourceDelphixEnvironmentDelete client d w
      = (Ret.error err, d,
          w.step (.FindEnvironmentByReference d.Id)
            (client.FindEnvironmentByReference d.Id w.remote).2) := by
  have h1 : (client.FindEnvironmentByReference d.Id w.remote).1.2 = some err := by
    rw [hfind]
  simp only [resourceDelphixEnvironmentDelete, h1]

/-- C7: if the lookup reports no object (and no error), Delete returns the
error `Unable find environment "<reference>"`, whose text contains the
reference; the lookup is the only client call it makes, so no
`DeleteEnvironment` call is made and the remote state is the one the lookup
left; the handle is unchanged.  If the lookup reports an object (and no
error), Delete makes exactly two client calls, the lookup and then one
`DeleteEnvironment` call on the stored reference, and the remote state is the
one that delete call left.  When that call returns no error Delete returns no
error and the handle is the old one with the identity set to empty; when it
returns an error Delete returns that error and the handle, and so the
identity, is unchanged.  Hence Delete returns no error (the path that clears
the identity) if and only if the `DeleteEnvironment` call returned no error,
and for a non-empty stored reference the identity ends empty if and only if
that call returned no error.  A lookup that itself fails makes Delete return
the lookup error with the lookup as its only call and the handle unchanged. -/
theorem delete_contract {σ : Type} (client : Client σ) (d : ResourceData) (w : World σ) :
    ((client.FindEnvironmentByReference d.Id w.remote).1 = (Iface.nil, none) →
      (resourceDelphixEnvironmentDelete client d w).1
        = Ret.error ("Unable find environment \"" ++ d.Id ++ "\"") ∧
      Contains ("Unable find environment \"" ++ d.Id ++ "\"") d.Id ∧
      (resourceDelphixEnvironmentDelete client d w).2.2.calls
        = w.calls ++ [ClientCall.FindEnvironmentByReference d.Id] ∧
      [ClientCall.FindEnvironmentByReference d.Id].filter ClientCall.isDelete = [] ∧
      (resourceDelphixEnvironmentDelete client d w).2.2.remote
        = (client.FindEnvironmentByReference d.Id w.remote).2 ∧
      (resourceDelphixEnvironmentDelete client d w).2.1 = d) ∧
    (∀ envObj : Iface,
      (client.FindEnvironmentByReference d.Id w.remote).1 = (envObj, none) →
      envObj ≠ Iface.nil →
      (resourceDelphixEnvironmentDelete client d w).2.2.calls
        = w.calls ++ [ClientCall.FindEnvironmentByReference d.Id,
            ClientCall.DeleteEnvironment d.Id] ∧
      ([ClientCall.FindEnvironmentByReference d.Id,
          ClientCall.DeleteEnvironment d.Id].filter ClientCall.isDelete).length = 1 ∧
      (resourceDelphixEnvironmentDelete client d w).2.2.remote
        = (client.DeleteEnvironment d.Id
            (client.FindEnvironmentByReference d.Id w.remote).2).2 ∧
      ((client.DeleteEnvironment d.Id
          (client.FindEnvironmentByReference d.Id w.remote).2).1 = none →
        (resourceDelphixEnvironmentDelete client d w).1 = Ret.ok ∧
        (resourceDelphixEnvironmentDelete client d w).2.1.Id = "" ∧
        (resourceDelphixEnvironmentDelete client d w).2.1 = { d with Id := "" }) ∧
      (∀ err : String,
        (client.DeleteEnvironment d.Id
          (client.FindEnvironmentByReference d.Id w.remote).2).1 = some err →
        (resourceDelphixEnvironmentDelete client d w).1 = Ret.error err ∧
        (resourceDelphixEnvironmentDelete client d w).2.1 = d ∧
        (resourceDelphixEnvironmentDelete client d w).2.1.Id = d.Id) ∧
      ((resourceDelphixEnvironmentDelete client d w).1 = Ret.ok ↔
        (client.DeleteEnvironment d.Id
          (client.FindEnvironmentByReference d.Id w.remote).2).1 = none) ∧
      (d.Id ≠ "" →
        ((resourceDelphixEnvironmentDelete client d w).2.1.Id = "" ↔
          (client.DeleteEnvironment d.Id
            (client.FindEnvironmentByReference d.Id w.remote).2).1 = none))) ∧
    (∀ (envObj : Iface) (err : String),
      (client.FindEnvironmentByReference d.Id w.remote).1 = (envObj, some err) →
      (resourceDelphixEnvironmentDelete client d w).1 = Ret.error err ∧
      (resourceDelphixEnvironmentDelete client d w).2.2.calls
        = w.calls ++ [ClientCall.FindEnvironmentByReference d.Id] ∧
      (resourceDelphixEnvironmentDelete client d w).2.1 = d) := by
  refine ⟨?_, ?_, ?_⟩
  · intro hfind
    rw [delete_missing_run client d w hfind]
    exact ⟨rfl, contains_mid _ _ _, rfl, rfl, rfl, rfl⟩
  · intro envObj hfind hpresent
    rw [delete_found_run client d w envObj hfind hpresent]
    cases hdel : (client.DeleteEnvironment d.Id
        (client.FindEnvironmentByReference d.Id w.remote).2).1 with
    | none =>
      refine ⟨?_, rfl, rfl, ?_, ?_, ?_, ?_⟩
      · simp [World.step]
      · intro _
        exact ⟨rfl, rfl, rfl⟩
      · intro err h
        cases h
      · simp
      · intro _
        simp
    | some err =>
      refine ⟨?_, rfl, rfl, ?_, ?_, ?_, ?_⟩
      · simp [World.step]
      · intro h
        cases h
      · intro err2 h
        cases h
        exact ⟨rfl, rfl, rfl⟩
      · simp
      · intro hid
        simp [hid]
  · intro envObj err hfind
    rw [delete_lookup_error_run client d w envObj err hfind]
    exact ⟨rfl, rfl, rfl⟩

/-- Witness for C7: the created scenario resource when the remote object is
gone, when it is there and the delete call succeeds, when it is there and
the delete call fails, and when the lookup itself fails. -/
theorem delete_contract_witness :
    ((resourceDelphixEnvironmentDelete (cannedClient .nil .nil .nil none none none)
          env1Created freshWorld).1
        = Ret.error "Unable find environment \"UNIX_HOST_ENVIRONMENT-1\"" ∧
      (resourceDelphixEnvironmentDelete (cannedClient .nil .nil .nil none none none)
          env1Created freshWorld).2.2.calls
        = freshWorld.calls ++ [ClientCall.FindEnvironmentByReference env1Created.Id]) ∧
    ((resourceDelphixEnvironmentDelete (cannedClient .nil (.map []) .nil none none none)
          env1Created freshWorld).2.2.calls
        = freshWorld.calls ++ [ClientCall.FindEnvironmentByReference env1Created.Id,
            ClientCall.DeleteEnvironment env1Created.Id] ∧
      (resourceDelphixEnvironmentDelete (cannedClient .nil (.map []) .nil none none none)
          env1Created freshWorld).1 = Ret.ok ∧
      (resourceDelphixEnvironmentDelete (cannedClient .nil (.map []) .nil none none none)
          env1Created freshWorld).2.1.Id = "") ∧
    ((resourceDelphixEnvironmentDelete
          (cannedClient .nil (.map []) .nil none none (some "busy"))
          env1Created freshWorld).2.2.calls
        = freshWorld.calls ++ [ClientCall.FindEnvironmentByReference env1Created.Id,
            ClientCall.DeleteEnvironment env1Created.Id] ∧
      (resourceDelphixEnvironmentDelete
          (cannedClient .nil (.map []) .nil none none (some "busy"))
          env1Created freshWorld).1 = Ret.error "busy" ∧
      (resourceDelphixEnvironmentDelete
          (cannedClient .nil (.map []) .nil none none (some "busy"))
          env1Created freshWorld).2.1 = env1Created) ∧
    ((resourceDelphixEnvironmentDelete (lookupErrorClient "timeout")
          env1Created freshWorld).1 = Ret.error "timeout" ∧
      (resourceDelphixEnvironmentDelete (lookupErrorClient "timeout")
          env1Created freshWorld).2.2.calls
        = freshWorld.calls ++ [ClientCall.FindEnvironmentByReference env1Created.Id] ∧
      (resourceDelphixEnvironmentDelete (lookupErrorClient "timeout")
          env1Created freshWorld).2.1 = env1Created) :=
  ⟨⟨((delete_contract (cannedClient .nil .nil .nil none none none)
        env1Created freshWorld).1 rfl).1,
    ((delete_contract (cannedClient .nil .nil .nil none none none)
        env1Created freshWorld).1 rfl).2.2.1⟩,
   ⟨((delete_contract (cannedClient .nil (.map []) .nil none none none)
        env1Created freshWorld).2.1 (.map []) rfl (by intro h; cases h)).1,
    (((delete_contract (cannedClient .nil (.map []) .nil none none none)
        env1Created freshWorld).2.1 (.map []) rfl (by intro h; cases h)).2.2.2.1 rfl).1,
    (((delete_contract (cannedClient .nil (.map []) .nil none none none)
        env1Created freshWorld).2.1 (.map []) rfl (by intro h; cases h)).2.2.2.1 rfl).2.1⟩,
   ⟨((delete_contract (cannedClient .nil (.map []) .nil none none (some "busy"))
        env1Created freshWorld).2.1 (.map []) rfl (by intro h; cases h)).1,
    (((delete_contract (cannedClient .nil (.map []) .nil none none (some "busy"))
        env1Created freshWorld).2.1 (.map []) rfl (by intro h; cases h)).2.2.2.2.1
        "busy" rfl).1,
    (((delete_contract (cannedClient .nil (.map []) .nil none none (some "busy"))
        env1Created freshWorld).2.1 (.map []) rfl (by intro h; cases h)).2.2.2.2.1
        "busy" rfl).2.1⟩,
   (delete_contract (lookupErrorClient "timeout") env1Created freshWorld).2.2
     .nil "timeout" rfl⟩

/-- Create against a name lookup that reports nothing and a create call
that fails: the remote error is returned as it is. -/
theorem create_failed_run {σ : Type} (client : Client σ) (d : ResourceData) (w : World σ)
    (err : String)
    (hfind : (client.FindEnvironmentByName d.name w.remote).1 = (Iface.nil, none))
    (hmade : (client.CreateEnvironment (environmentCreateParams (createEnv d))
      (client.FindEnvironmentByName d.name w.remote).2).1.2 = some err) :
    (resourceDelphixEnvironmentCreate client d w).1 = Ret.error err ∧
    (resourceDelphixEnvironmentCreate client d w).2.1 = d := by
  have h1 : (client.FindEnvironmentByName d.name w.remote).1.2 = none := by rw [hfind]
  have h2 : (client.FindEnvironmentByName d.name w.remote).1.1 = Iface.nil := by rw [hfind]
  simp only [createEnv] at hmade
  simp only [resourceDelphixEnvironmentCreate, createEnv, World.step, h1, h2, hmade, and_self]

/-- No text is a non-empty text followed by itself. -/
theorem not_proper_wrap (text : String) :
    ¬ ∃ pre : String, pre ≠ "" ∧ text = pre ++ text := by
  rintro ⟨pre, hne, h⟩
  apply hne
  have hlen := congrArg String.length h
  rw [String.length_append] at hlen
  have hzero : pre.length = 0 := by omega
  exact String.ext (List.length_eq_zero.mp hzero)

/-- Counterexample for C8 as stated: when `CreateEnvironment` fails with
`boom`, Create returns the error `boom` itself, and when `DeleteEnvironment`
fails with `busy`, Delete returns `busy` itself; neither text is a non-empty
descriptive text followed by the remote text. -/
theorem mutation_error_wrapped_counterexample :
    ((cannedClient .nil .nil .nil (some "boom") none none).CreateEnvironment
        (environmentCreateParams (createEnv env1)) ()).1.2 = some "boom" ∧
    (resourceDelphixEnvironmentCreate
        (cannedClient .nil .nil .nil (some "boom") none none) env1 freshWorld).1
      = Ret.error "boom" ∧
    (¬ ∃ pre : String, pre ≠ "" ∧ "boom" = pre ++ "boom") ∧
    ((cannedClient .nil (.map []) .nil none none (some "busy")).DeleteEnvironment
        env1Created.Id ()).1 = some "busy" ∧
    (resourceDelphixEnvironmentDelete
        (cannedClient .nil (.map []) .nil none none (some "busy")) env1Created freshWorld).1
      = Ret.error "busy" ∧
    (¬ ∃ pre : String, pre ≠ "" ∧ "busy" = pre ++ "busy") :=
  ⟨rfl, by decide, not_proper_wrap "boom", rfl, by decide, not_proper_wrap "busy"⟩

/-- C8 (amended): a failing `UpdateEnvironment` makes Update return the
error whose text is `error updating Environment: ` followed by the remote
error text; a failing `CreateEnvironment` makes Create return the remote
error unchanged, and a failing `DeleteEnvironment` makes Delete return the
remote error unchanged. -/
theorem mutation_error_propagation {σ : Type} (client : Client σ)
    (d : ResourceData) (w : World σ) (err : String) :
    ((client.UpdateEnvironment d.Id (environmentUpdateParams (updateEnv d)) w.remote).1
        = some err →
      (resourceDelphixEnvironmentUpdate client d w).1
        = Ret.error ("error updating Environment: " ++ err)) ∧
    ((client.FindEnvironmentByName d.name w.remote).1 = (Iface.nil, none) →
      (client.CreateEnvironment (environmentCreateParams (createEnv d))
        (client.FindEnvironmentByName d.name w.remote).2).1.2 = some err →
      (resourceDelphixEnvironmentCreate client d w).1 = Ret.error err) ∧
    (∀ envObj : Iface,
      (client.FindEnvironmentByReference d.Id w.remote).1 = (envObj, none) →
      envObj ≠ Iface.nil →
      (client.DeleteEnvironment d.Id
        (client.FindEnvironmentByReference d.Id w.remote).2).1 = some err →
      (resourceDelphixEnvironmentDelete client d w).1 = Ret.error err) := by
  refine ⟨?_, ?_, ?_⟩
  · intro hupd
    simp only [resourceDelphixEnvironmentUpdate, hupd]
  · intro hfind hmade
    exact (create_failed_run client d w err hfind hmade).1
  · intro envObj hfind hpresent hdel
    rw [delete_found_run client d w envObj hfind hpresent, hdel]

/-- Witness for C8 (amended): one failing mutation per operation on the
scenario resource. -/
theorem mutation_error_propagation_witness :
    (resourceDelphixEnvironmentUpdate
        (cannedClient .nil .nil .nil none (some "boom") none) env1Created freshWorld).1
      = Ret.error "error updating Environment: boom" ∧
    (resourceDelphixEnvironmentCreate
        (cannedClient .nil .nil .nil (some "boom") none none) env1 freshWorld).1
      = Ret.error "boom" ∧
    (resourceDelphixEnvironmentDelete
        (cannedClient .nil (.map []) .nil none none (some "boom")) env1Created freshWorld).1
      = Ret.error "boom" :=
  ⟨(mutation_error_propagation (cannedClient .nil .nil .nil none (some "boom") none)
      env1Created freshWorld "boom").1 rfl,
   (mutation_error_propagation (cannedClient .nil .nil .nil (some "boom") none none)
      env1 freshWorld "boom").2.1 rfl rfl,
   (mutation_error_propagation (cannedClient .nil (.map []) .nil none none (some "boom"))
      env1Created freshWorld "boom").2.2 (.map []) rfl (by intro h; cases h) rfl⟩

/-- Read never changes the identity. -/
theorem read_keeps_id {σ : Type} (client : Client σ) (d : ResourceData) (w : World σ) :
    (resourceDelphixEnvironmentRead client d w).2.1.Id = d.Id := by
  unfold resourceDelphixEnvironmentRead
  simp only []
  repeat' split
  all_goals rfl

/-- Update never changes the identity. -/
theorem update_keeps_id {σ : Type} (client : Client σ) (d : ResourceData) (w : World σ) :
    (resourceDelphixEnvironmentUpdate client d w).2.1.Id = d.Id := by
  unfold resourceDelphixEnvironmentUpdate
  simp only []
  split
  · rfl
  · exact read_keeps_id client d _

/-- Create that does not return `nil` leaves the handle as it was. -/
theorem create_not_ok_keeps {σ : Type} (client : Client σ) (d : ResourceData) (w : World σ)
    (hne : (resourceDelphixEnvironmentCreate client d w).1 ≠ Ret.ok) :
    (resourceDelphixEnvironmentCreate client d w).2.1 = d := by
  revert hne
  unfold resourceDelphixEnvironmentCreate
  simp only []
  repeat' split
  all_goals first
    | (intro _; rfl)
    | (intro h; exact absurd rfl h)

/-- Delete that does not return `nil` leaves the handle as it was. -/
theorem delete_not_ok_keeps {σ : Type} (client : Client σ) (d : ResourceData) (w : World σ)
    (hne : (resourceDelphixEnvironmentDelete client d w).1 ≠ Ret.ok) :
    (resourceDelphixEnvironmentDelete client d w).2.1 = d := by
  revert hne
  unfold resourceDelphixEnvironmentDelete
  simp only []
  repeat' split
  all_goals first
    | (intro _; rfl)
    | (intro h; exact absurd rfl h)

/-- Create that returns `nil` against a client that never answers the empty
string sets a non-empty identity. -/
theorem create_ok_nonempty {σ : Type} (client : Client σ)
    (hclient : ∀ p s, (client.CreateEnvironment p s).1 ≠ (Iface.str "", none))
    (d : ResourceData) (w : World σ)
    (hok : (resourceDelphixEnvironmentCreate client d w).1 = Ret.ok) :
    (resourceDelphixEnvironmentCreate client d w).2.1.Id ≠ "" := by
  obtain ⟨reference, -, hmade, hrun⟩ := create_ok_inv client d w hok
  rw [hrun]
  intro hempty
  have hempty2 : reference = "" := hempty
  subst hempty2
  exact hclient _ _ hmade

/-- One callback keeps "live implies a non-empty identity". -/
theorem call_keeps_inv {σ : Type} (client : Client σ)
    (hclient : ∀ p s, (client.CreateEnvironment p s).1 ≠ (Iface.str "", none))
    (s : Session σ) (op : Op)
    (hinv : s.live = true → s.d.Id ≠ "") :
    (s.call client op).live = true → (s.call client op).d.Id ≠ "" := by
  cases op with
  | Create config =>
    simp only [Session.call]
    intro hlive
    by_cases hok : (resourceDelphixEnvironmentCreate client
        { config with Id := s.d.Id } s.w).1 = Ret.ok
    · exact create_ok_nonempty client hclient _ _ hok
    · rw [create_not_ok_keeps client _ _ hok]
      simp only [hok, decide_False, Bool.or_false] at hlive
      exact hinv hlive
  | Read =>
    simp only [Session.call]
    intro hlive
    rw [read_keeps_id]
    exact hinv hlive
  | Update config =>
    simp only [Session.call]
    intro hlive
    rw [update_keeps_id]
    exact hinv hlive
  | Delete =>
    simp only [Session.call]
    intro hlive
    by_cases hok : (resourceDelphixEnvironmentDelete client s.d s.w).1 = Ret.ok
    · simp [hok] at hlive
    · rw [delete_not_ok_keeps client _ _ hok]
      simp only [hok, decide_False, Bool.not_false, Bool.and_true] at hlive
      exact hinv hlive

/-- A run keeps "live implies a non-empty identity". -/
theorem run_keeps_inv {σ : Type} (client : Client σ)
    (hclient : ∀ p s, (client.CreateEnvironment p s).1 ≠ (Iface.str "", none))
    (ops : List Op) (s : Session σ)
    (hinv : s.live = true → s.d.Id ≠ "") :
    (run client s ops).live = true → (run client s ops).d.Id ≠ "" := by
  induction ops generalizing s with
  | nil => exact hinv
  | cons op rest ih =>
    simp only [run, List.foldl_cons]
    exact ih (s.call client op) (call_keeps_inv client hclient s op hinv)

/-- Counterexample for C9 as stated: against a client whose
`CreateEnvironment` answers the empty string with no error, Create from the
absent state returns no error and persists the empty identity, so the state
after a successful Create carries an empty reference. -/
theorem created_identity_nonempty_counterexample :
    (resourceDelphixEnvironmentCreate (cannedClient .nil .nil (.str "") none none none)
        env1 freshWorld).1 = Ret.ok ∧
    (resourceDelphixEnvironmentCreate (cannedClient .nil .nil (.str "") none none none)
        env1 freshWorld).2.1.Id = "" ∧
    (run (cannedClient .nil .nil (.str "") none none none) (absent env1 freshWorld)
        [Op.Create env1]).live = true ∧
    (run (cannedClient .nil .nil (.str "") none none none) (absent env1 freshWorld)
        [Op.Create env1]).d.Id = "" := by
  refine ⟨?_, ?_, ?_, ?_⟩ <;> decide

/-- C9 (amended): for every client whose `CreateEnvironment` never answers
the empty string as identity, along every sequence of Create, Read, Update
and Delete calls from the absent state the identity is non-empty whenever a
Create has succeeded and no Delete has succeeded since; in particular the
identity is non-empty after every successful Create. -/
theorem created_identity_nonempty {σ : Type} (client : Client σ)
    (hclient : ∀ p s, (client.CreateEnvironment p s).1 ≠ (Iface.str "", none)) :
    (∀ (config : ResourceData) (w : World σ) (ops : List Op),
      (run client (absent config w) ops).live = true →
      (run client (absent config w) ops).d.Id ≠ "") ∧
    (∀ (d : ResourceData) (w : World σ),
      (resourceDelphixEnvironmentCreate client d w).1 = Ret.ok →
      (resourceDelphixEnvironmentCreate client d w).2.1.Id ≠ "") := by
  constructor
  · intro config w ops
    apply run_keeps_inv client hclient
    intro h
    simp [absent] at h
  · intro d w hok
    exact create_ok_nonempty client hclient d w hok

/-- Witness for C9 (amended): the scenario resource is created, read and
updated against a client that answers `UNIX_HOST_ENVIRONMENT-1`. -/
theorem created_identity_nonempty_witness :
    (run
        (cannedClient .nil (.map [("name", .str "env1"), ("description", .str "")])
          (.str "UNIX_HOST_ENVIRONMENT-1") none none none)
        (absent env1 freshWorld) [Op.Create env1, Op.Read, Op.Update env1]).live = true ∧
    (run
        (cannedClient .nil (.map [("name", .str "env1"), ("description", .str "")])
          (.str "UNIX_HOST_ENVIRONMENT-1") none none none)
        (absent env1 freshWorld) [Op.Create env1, Op.Read, Op.Update env1]).d.Id ≠ "" :=
  ⟨by decide,
   (created_identity_nonempty
      (cannedClient .nil (.map [("name", .str "env1"), ("description", .str "")])
        (.str "UNIX_HOST_ENVIRONMENT-1") none none none)
      (by intro p s h; simp [cannedClient] at h)).1
     env1 freshWorld [Op.Create env1, Op.Read, Op.Update env1] (by decide)⟩

/-- Counterexample for C10 as stated: `name` and `toolkit_path` are outside
the three listed fields yet not marked `ForceNew`, and `server_id` and
`public_key` are among the three yet marked `ForceNew`. -/
theorem schema_force_new_counterexample :
    (resourceDelphixEnvironment.lookup "name").map (fun s => s.ForceNew) = some false ∧
    (resourceDelphixEnvironment.lookup "toolkit_path").map (fun s => s.ForceNew) = some false ∧
    (resourceDelphixEnvironment.lookup "server_id").map (fun s => s.ForceNew) = some true ∧
    (resourceDelphixEnvironment.lookup "public_key").map (fun s => s.ForceNew) = some true ∧
    ¬ (∀ (field : String) (s : Schema), resourceDelphixEnvironment.lookup field = some s →
        (s.ForceNew = true ↔ field ∉ ["description", "server_id", "public_key"])) := by
  refine ⟨by decide, by decide, by decide, by decide, ?_⟩
  intro h
  have hname := h "name" { Type_ := .TypeString, Required := true } (by decide)
  revert hname
  decide

/-- C10 (amended): in the schema of `resourceDelphixEnvironment` the fields
marked `ForceNew` are exactly `user_name`, `user_password`, `address`,
`server_id` and `public_key`; `name`, `description` and `toolkit_path` are
not marked. -/
theorem schema_force_new :
    ((resourceDelphixEnvironment.filter (fun e => e.2.ForceNew)).map (fun e => e.1)
      = ["user_name", "user_password", "address", "server_id", "public_key"]) ∧
    ((resourceDelphixEnvironment.filter (fun e => !e.2.ForceNew)).map (fun e => e.1)
      = ["name", "description", "toolkit_path"]) ∧
    (resourceDelphixEnvironment.map (fun e => e.1)
      = ["user_name", "user_password", "name", "address", "description", "toolkit_path",
          "server_id", "public_key"]) := by
  refine ⟨?_, ?_, ?_⟩ <;> decide

end Delphix
